import Mathlib

/-!
Verification development for the Orion demand-forecasting pipeline
(backend/agents/orion/app).  The forecasting components are shallowly
embedded: real-valued quantities are rationals, database tables are lists
of rows, and each embedded definition cites the source location it
follows.  The parts of models/forecast.py that are absent from the source
tree are modelled from the specification and say so in their doc comment.
-/

namespace Orion

/-- Severity levels of an insight (models/forecast_insight.py). -/
inductive Severity where
  | low
  | medium
  | high
  | critical
  deriving Repr, DecidableEq

/-- Weight renormalization performed by the ensemble constructor
(ensemble_model.py, EnsembleModel.__init__ lines 53-57): the two weights
are divided by their sum only when that sum is positive; otherwise they
are left untouched. -/
def normalizeWeights (sarima_weight prophet_weight : ℚ) : ℚ × ℚ :=
  let total_weight := sarima_weight + prophet_weight
  if 0 < total_weight then
    (sarima_weight / total_weight, prophet_weight / total_weight)
  else
    (sarima_weight, prophet_weight)

/-- Inverse-MAPE weight normalization of EnsembleModel._optimize_weights
(ensemble_model.py lines 183-202), applied to the two validation MAPEs. -/
def inverseMapeWeights (sarima_mape prophet_mape : ℚ) : ℚ × ℚ :=
  let epsilon : ℚ := 1 / 1000000
  let sarima_inv := 1 / (sarima_mape + epsilon)
  let prophet_inv := 1 / (prophet_mape + epsilon)
  let total := sarima_inv + prophet_inv
  (sarima_inv / total, prophet_inv / total)

/-- Outcome of calling a component model's evaluate on the validation
slice, as seen from EnsembleModel._optimize_weights: the call can raise
(untrained model guard), return a tagged failure result, or return
metrics carrying a MAPE. -/
inductive EvalOutcome where
  | raisedValueError
  | failedResult
  | ok (mape : ℚ)
  deriving Repr, DecidableEq

/-- MAPE read off an evaluation result inside _optimize_weights
(ensemble_model.py lines 177 and 181): a result whose success flag is
false contributes 100.  The raised case never reaches this read. -/
def evalMape : EvalOutcome → ℚ
  | .failedResult => 100
  | .ok m => m
  | .raisedValueError => 100

/-- EnsembleModel._optimize_weights (ensemble_model.py lines 174-209):
the whole body sits in a try block, so an exception raised while
evaluating either component is caught and the equal-weight fallback
(0.5, 0.5) is returned; otherwise the two MAPEs are combined by
inverse-MAPE normalization. -/
def optimizeWeightsRun (sarimaEval prophetEval : EvalOutcome) : ℚ × ℚ :=
  match sarimaEval, prophetEval with
  | .raisedValueError, _ => (1/2, 1/2)
  | _, .raisedValueError => (1/2, 1/2)
  | s, p => inverseMapeWeights (evalMape s) (evalMape p)

/-- Outcome of SARIMAModel.evaluate on the validation slice as a function
of whether the statsmodels fit succeeded during training: the fitted
handle model_fit is assigned only by a successful fit
(sarima_model.py line 167), and evaluate raises ValueError when the
handle is absent (sarima_model.py lines 285-286).  A trained component
returns either a tagged failure or its MAPE. -/
def sarimaEvalOutcome (fitOk : Bool) (evalResult : Option ℚ) : EvalOutcome :=
  if fitOk then
    match evalResult with
    | some m => .ok m
    | none => .failedResult
  else .raisedValueError

/-- Forecast point dictionary produced by the model predict methods. -/
structure ForecastPoint where
  forecast_date : Int
  predicted_quantity : ℚ
  confidence_interval_lower : ℚ
  confidence_interval_upper : ℚ
  confidence_score : ℚ
  deriving Repr, DecidableEq

/-- Forecast point built by SARIMAModel.predict (sarima_model.py lines
246-252): the statsmodels mean and interval bounds are passed through
with no clamping. -/
def sarimaForecastPoint (d : Int) (mean lower upper conf : ℚ) : ForecastPoint :=
  ⟨d, mean, lower, upper, conf⟩

/-- Forecast point built by ProphetModel.predict (prophet_model.py lines
204-212): yhat and both interval bounds are independently clamped
to be non-negative. -/
def prophetForecastPoint (d : Int) (yhat yhat_lower yhat_upper conf : ℚ) : ForecastPoint :=
  ⟨d, max 0 yhat, max 0 yhat_lower, max 0 yhat_upper, conf⟩

/-- Pointwise weighted combination of EnsembleModel.predict
(ensemble_model.py lines 267-300): the prediction and both interval
bounds are weight-weighted sums of the component values, each floored
at 0; the date is taken from the SARIMA point. -/
def ensembleCombine (sarima_weight prophet_weight confidence_level : ℚ)
    (s p : ForecastPoint) : ForecastPoint where
  forecast_date := s.forecast_date
  predicted_quantity :=
    max 0 (sarima_weight * s.predicted_quantity + prophet_weight * p.predicted_quantity)
  confidence_interval_lower :=
    max 0 (sarima_weight * s.confidence_interval_lower + prophet_weight * p.confidence_interval_lower)
  confidence_interval_upper :=
    max 0 (sarima_weight * s.confidence_interval_upper + prophet_weight * p.confidence_interval_upper)
  confidence_score := confidence_level

/-- Combination stage of EnsembleModel.predict (ensemble_model.py lines
249-313): if both component predictions failed the ensemble reports
failure; if exactly one failed the survivor's forecast list is returned
verbatim; otherwise the lists are combined pointwise. -/
def ensemblePredict (sarima_weight prophet_weight confidence_level : ℚ) :
    Option (List ForecastPoint) → Option (List ForecastPoint) → Option (List ForecastPoint)
  | none, none => none
  | none, some pf => some pf
  | some sf, none => some sf
  | some sf, some pf =>
      some (List.zipWith (ensembleCombine sarima_weight prophet_weight confidence_level) sf pf)

/-- Interval well-formedness of a forecast point: the prediction lies
between its confidence bounds. -/
def pointOrdered (fp : ForecastPoint) : Prop :=
  fp.confidence_interval_lower ≤ fp.predicted_quantity ∧
  fp.predicted_quantity ≤ fp.confidence_interval_upper

/-- Property claimed of every ensemble forecast point: ordered bounds and
all three values non-negative. -/
def pointSpecOk (fp : ForecastPoint) : Prop :=
  (fp.confidence_interval_lower ≤ fp.predicted_quantity ∧
   fp.predicted_quantity ≤ fp.confidence_interval_upper) ∧
  (0 ≤ fp.confidence_interval_lower ∧ 0 ≤ fp.predicted_quantity ∧
   0 ≤ fp.confidence_interval_upper)

instance (fp : ForecastPoint) : Decidable (pointOrdered fp) :=
  decidable_of_iff
    (fp.confidence_interval_lower ≤ fp.predicted_quantity ∧
     fp.predicted_quantity ≤ fp.confidence_interval_upper) Iff.rfl

instance (fp : ForecastPoint) : Decidable (pointSpecOk fp) :=
  decidable_of_iff
    ((fp.confidence_interval_lower ≤ fp.predicted_quantity ∧
      fp.predicted_quantity ≤ fp.confidence_interval_upper) ∧
     (0 ≤ fp.confidence_interval_lower ∧ 0 ≤ fp.predicted_quantity ∧
      0 ≤ fp.confidence_interval_upper)) Iff.rfl

/-- Row of the forecasts table as written and read by forecaster.py.
The ORM class itself lives in models/forecast.py, which is absent from
the source tree; the fields here are exactly those accessed by
forecaster.py (lines 300-331, 362-379, 420-449). -/
structure StoredForecast where
  product_id : Option String
  sku : String
  forecast_date : Int
  forecast_horizon : String
  predicted_quantity : ℚ
  confidence_interval_lower : ℚ
  confidence_interval_upper : ℚ
  confidence_score : ℚ
  model_name : String
  model_version : String
  actual_quantity : Option ℚ := none
  error : Option ℚ := none
  deriving Repr, DecidableEq

/-- Placeholder product id stored when no product id was provided
(forecaster.py line 319). -/
def defaultProductId : String := "00000000-0000-0000-0000-000000000000"

/-- Horizon label derived from forecast length
(forecaster.py lines 287-295). -/
def horizonLabel (num_forecasts : Nat) : String :=
  if num_forecasts ≤ 7 then "7-day"
  else if num_forecasts ≤ 14 then "14-day"
  else if num_forecasts ≤ 30 then "30-day"
  else toString num_forecasts ++ "-day"

/-- Key predicate of the duplicate check in Forecaster._store_forecasts
(forecaster.py lines 300-304): SQL equality of the row's product_id
against the passed (possibly NULL) product id, plus forecast date and
horizon label.  The same predicate counts live rows per key. -/
def keyMatches (pid : Option String) (d : Int) (h : String) (r : StoredForecast) : Bool :=
  r.product_id == pid && r.forecast_date == d && r.forecast_horizon == h

/-- Single-point upsert of Forecaster._store_forecasts (forecaster.py
lines 297-331): the first row matching the key predicate is updated in
place (quantity, bounds, confidence, model identity); otherwise a fresh
row is appended, substituting the placeholder product id and the
placeholder sku for missing or empty arguments. -/
def upsertForecast (pid sku : Option String) (horizon model_name model_version : String)
    (fp : ForecastPoint) : List StoredForecast → List StoredForecast
  | [] =>
    [{ product_id := some (match pid with
                           | some p => if p == "" then defaultProductId else p
                           | none => defaultProductId),
       sku := (match sku with
               | some s => if s == "" then "UNKNOWN" else s
               | none => "UNKNOWN"),
       forecast_date := fp.forecast_date,
       forecast_horizon := horizon,
       predicted_quantity := fp.predicted_quantity,
       confidence_interval_lower := fp.confidence_interval_lower,
       confidence_interval_upper := fp.confidence_interval_upper,
       confidence_score := fp.confidence_score,
       model_name := model_name,
       model_version := model_version }]
  | r :: rs =>
    if keyMatches pid fp.forecast_date horizon r then
      { r with predicted_quantity := fp.predicted_quantity,
               confidence_interval_lower := fp.confidence_interval_lower,
               confidence_interval_upper := fp.confidence_interval_upper,
               confidence_score := fp.confidence_score,
               model_name := model_name,
               model_version := model_version } :: rs
    else r :: upsertForecast pid sku horizon model_name model_version fp rs

/-- Forecaster._store_forecasts over a whole forecast list
(forecaster.py lines 259-341): the horizon label is derived once from
the list length and every point is upserted in order. -/
def storeForecasts (pid sku : Option String) (model_name model_version : String)
    (fps : List ForecastPoint) (tbl : List StoredForecast) : List StoredForecast :=
  let horizon := horizonLabel fps.length
  fps.foldl (fun t fp => upsertForecast pid sku horizon model_name model_version fp t) tbl

/-- Number of live rows for one (entity, forecast date, horizon) key. -/
def countKey (tbl : List StoredForecast) (pid : Option String) (d : Int) (h : String) : Nat :=
  (tbl.filter (keyMatches pid d h)).length

/-- First live row for a key, in table order, as db.query(...).first()
returns it. -/
def firstKeyRow (tbl : List StoredForecast) (pid : Option String) (d : Int) (h : String) :
    Option StoredForecast :=
  (tbl.filter (keyMatches pid d h)).head?

/-- Minimum required history in days (config.py line 36). -/
def MIN_HISTORY_DAYS : Nat := 365

/-- Tagged result shape returned by Forecaster.generate_forecast. -/
structure ForecastRunResult where
  success : Bool
  error : Option String
  forecasts_created : Nat
  deriving Repr, DecidableEq

/-- Data-sufficiency gate at the head of Forecaster.generate_forecast
(forecaster.py lines 78-91): an empty feature frame or one shorter than
MIN_HISTORY_DAYS yields a tagged failure result; none means the gate is
passed and the pipeline proceeds to training. -/
def generateForecastGate (seriesLen : Nat) : Option ForecastRunResult :=
  if seriesLen == 0 then
    some { success := false,
           error := some ("No historical data available"),
           forecasts_created := 0 }
  else if seriesLen < MIN_HISTORY_DAYS then
    some { success := false,
           error := some ("Insufficient data: " ++ toString seriesLen ++
                          " days available, " ++ toString MIN_HISTORY_DAYS ++ " required"),
           forecasts_created := 0 }
  else none

/-- Raw sales row as loaded by FeatureEngineer._load_sales_data
(feature_engineering.py lines 114-165). -/
structure SaleRow where
  sale_date : Int
  quantity_sold : ℚ
  unit_price : ℚ
  total_revenue : ℚ
  deriving Repr, DecidableEq

/-- Aggregated values of one observed day — quantity summed, revenue
summed, unit price averaged (feature_engineering.py lines 178-182);
none when the day has no raw rows. -/
def dayAgg (rows : List SaleRow) (d : Int) : Option (ℚ × ℚ × ℚ) :=
  let sub := rows.filter (fun r => r.sale_date == d)
  if sub.isEmpty then none
  else some ((sub.map (fun r => r.quantity_sold)).sum,
             (sub.map (fun r => r.total_revenue)).sum,
             (sub.map (fun r => r.unit_price)).sum / sub.length)

/-- Row of the gap-filled daily series; unit_price is none exactly where
pandas would leave NaN after the forward fill. -/
structure DailyRow where
  sale_date : Int
  quantity_sold : ℚ
  total_revenue : ℚ
  unit_price : Option ℚ
  deriving Repr, DecidableEq

/-- Reindexing walk over the continuous daily calendar: one output row
per day, quantity and revenue zero-filled and unit price forward-filled
on days with no data (feature_engineering.py lines 184-201).  The last
argument carries the most recent known unit price. -/
def fillDays (rows : List SaleRow) : Int → Nat → Option ℚ → List DailyRow
  | _, 0, _ => []
  | d, k + 1, last =>
    match dayAgg rows d with
    | some (q, rev, p) => ⟨d, q, rev, some p⟩ :: fillDays rows (d + 1) k (some p)
    | none => ⟨d, 0, 0, last⟩ :: fillDays rows (d + 1) k last

/-- Smallest observed sale date (0 for an empty input, unused there). -/
def minSaleDate (rows : List SaleRow) : Int :=
  ((rows.map (fun r => r.sale_date)).min?).getD 0

/-- Largest observed sale date (0 for an empty input, unused there). -/
def maxSaleDate (rows : List SaleRow) : Int :=
  ((rows.map (fun r => r.sale_date)).max?).getD 0

/-- FeatureEngineer._aggregate_daily (feature_engineering.py lines
167-202): daily aggregation followed by reindexing over the calendar
from the first to the last observed sale date. -/
def aggregate_daily (rows : List SaleRow) : List DailyRow :=
  if rows.isEmpty then []
  else fillDays rows (minSaleDate rows) ((maxSaleDate rows - minSaleDate rows + 1).toNat) none

/-- Modelled from the spec: Forecast.calculate_error lives in
models/forecast.py, which is absent from the source tree; the spec says
the reconciliation "records the actual and computes signed error
(actual − predicted)". -/
def calculate_error (r : StoredForecast) : StoredForecast :=
  match r.actual_quantity with
  | some a => { r with error := some (a - r.predicted_quantity) }
  | none => r

/-- Per-row error as read by the accuracy report (forecaster.py line
448): Python falsiness maps both a missing and a zero stored error
to 0, leaving the signed value otherwise. -/
def reportErrorValue (r : StoredForecast) : ℚ :=
  match r.error with
  | some e => if e = 0 then 0 else e
  | none => 0

/-- Rows feeding the accuracy report: forecast date within the range and
a realized actual present (forecaster.py lines 420-424). -/
def reportRows (tbl : List StoredForecast) (start_date end_date : Int) : List StoredForecast :=
  tbl.filter (fun r =>
    start_date ≤ r.forecast_date && r.forecast_date ≤ end_date && r.actual_quantity.isSome)

/-- Per-model mae of Forecaster.get_accuracy_report (forecaster.py line
463): the plain mean of the stored signed errors of that model's
in-range rows with actuals. -/
def reportMae (tbl : List StoredForecast) (start_date end_date : Int) (m : String) : ℚ :=
  let errs := ((reportRows tbl start_date end_date).filter
                 (fun r => r.model_name == m)).map reportErrorValue
  errs.sum / errs.length

/-- Success flag of Forecaster.get_accuracy_report (forecaster.py lines
426-431): the report fails exactly when no in-range forecast holds a
realized actual. -/
def reportSucceeds (tbl : List StoredForecast) (start_date end_date : Int) : Bool :=
  !(reportRows tbl start_date end_date).isEmpty

/-- Mean absolute error over a model's in-range rows with actuals, as
the specification defines MAE: mean of the absolute differences between
actual and predicted quantity. -/
def specModelMae (tbl : List StoredForecast) (start_date end_date : Int) (m : String) : ℚ :=
  let errs := ((reportRows tbl start_date end_date).filter
                 (fun r => r.model_name == m)).map
                 (fun r => |r.actual_quantity.getD 0 - r.predicted_quantity|)
  errs.sum / errs.length

/-- Mean of a historical quantity series, as pandas mean computes it. -/
def histMean (hqs : List ℚ) : ℚ := hqs.sum / hqs.length

/-- InsightsGenerator._detect_demand_spikes (insights_generator.py lines
215-274), reduced to the quantity series: given the forecast quantities,
the historical quantities and the historical sample standard deviation
(the pandas std, a square root, is taken as a parameter), it returns the
severity of the single emitted insight, or none when no forecast point
exceeds mean plus two standard deviations or either frame is empty. -/
def detectDemandSpikes (forecastQty histQty : List ℚ) (histStd : ℚ) : Option Severity :=
  if forecastQty.isEmpty || histQty.isEmpty then none
  else
    let historical_avg := histMean histQty
    let threshold := historical_avg + 2 * histStd
    let spikes := forecastQty.filter (fun q => threshold < q)
    if spikes.isEmpty then none
    else
      let max_spike := spikes.foldr max threshold
      if historical_avg + 3 * histStd < max_spike then some .critical
      else if historical_avg + (5/2) * histStd < max_spike then some .high
      else some .medium

/-- Result of calling a model method that may deliberately raise its
untrained-model ValueError. -/
inductive CallOutcome (α : Type) where
  | raisedValueError
  | returns (a : α)
  deriving Repr, DecidableEq

/-- SARIMA component state: the fitted statsmodels handle
(sarima_model.py lines 47-48 set it to None in the constructor). -/
structure SARIMAState where
  model_fit : Option Unit
  deriving Repr, DecidableEq

/-- Prophet component state: the Prophet model object
(prophet_model.py line 53 sets it to None in the constructor). -/
structure ProphetState where
  model : Option Unit
  deriving Repr, DecidableEq

/-- Ensemble state: the two component model objects
(ensemble_model.py lines 48-49 set both to None in the constructor). -/
structure EnsembleState where
  sarima_model : Option SARIMAState
  prophet_model : Option ProphetState
  deriving Repr, DecidableEq

/-- Freshly constructed SARIMA model. -/
def initSARIMA : SARIMAState := ⟨none⟩

/-- Freshly constructed Prophet model. -/
def initProphet : ProphetState := ⟨none⟩

/-- Freshly constructed ensemble. -/
def initEnsemble : EnsembleState := ⟨none, none⟩

/-- SARIMAModel.train (sarima_model.py lines 119-202): the fitted handle
is assigned only when the statsmodels fit returns (line 167); a fit that
raises is caught and reported as a failure with the handle unset. -/
def sarimaTrain (st : SARIMAState) (fitOk : Bool) : SARIMAState × Bool :=
  if fitOk then ({ model_fit := some () }, true) else (st, false)

/-- ProphetModel.train (prophet_model.py lines 91-168): the model object
is assigned before fitting (line 122), so it exists even when the fit
then raises and training reports failure; an exception before line 122
leaves the state untouched. -/
def prophetTrain (st : ProphetState) (reachedConstruction fitOk : Bool) :
    ProphetState × Bool :=
  if reachedConstruction then ({ model := some () }, fitOk) else (st, false)

/-- SARIMAModel.predict entry (sarima_model.py lines 219-220): raises
before any other work when the fitted handle is absent; every later
failure is caught inside the try block and returned as a tagged result,
abstracted here by the body argument. -/
def sarimaPredictCall {α : Type} (st : SARIMAState) (body : α) : CallOutcome α :=
  if st.model_fit.isSome then .returns body else .raisedValueError

/-- SARIMAModel.evaluate entry (sarima_model.py lines 285-286): same
untrained guard as predict. -/
def sarimaEvaluateCall {α : Type} (st : SARIMAState) (body : α) : CallOutcome α :=
  if st.model_fit.isSome then .returns body else .raisedValueError

/-- ProphetModel.predict entry (prophet_model.py lines 185-186): raises
only when the model object is absent; with the object present, the whole
body sits in a try block, so it always returns a result dictionary. -/
def prophetPredictCall {α : Type} (st : ProphetState) (body : α) : CallOutcome α :=
  if st.model.isSome then .returns body else .raisedValueError

/-- ProphetModel.evaluate entry (prophet_model.py lines 247-248): same
guard as predict. -/
def prophetEvaluateCall {α : Type} (st : ProphetState) (body : α) : CallOutcome α :=
  if st.model.isSome then .returns body else .raisedValueError

/-- EnsembleModel.predict entry (ensemble_model.py lines 226-227):
raises when either component model object is absent. -/
def ensemblePredictCall {α : Type} (st : EnsembleState) (body : α) : CallOutcome α :=
  if st.sarima_model.isSome && st.prophet_model.isSome then .returns body
  else .raisedValueError

/-- EnsembleModel.evaluate entry (ensemble_model.py lines 338-339):
same guard as predict. -/
def ensembleEvaluateCall {α : Type} (st : EnsembleState) (body : α) : CallOutcome α :=
  if st.sarima_model.isSome && st.prophet_model.isSome then .returns body
  else .raisedValueError

/-- Sales-history row as read by the insights generator
(insights_generator.py lines 196-200), keeping the category column to
make entity scope visible. -/
structure SalesHistoryRow where
  product_id : String
  category_id : Int
  sale_date : Int
  quantity_sold : ℚ
  revenue : ℚ
  deriving Repr, DecidableEq

/-- InsightsGenerator._get_forecasts (insights_generator.py lines
155-172): rows with forecast date from today through today plus the
horizon; the product filter is applied only for a truthy product id and
the category id argument is accepted but never used. -/
def getForecastsForInsights (product_id : Option String) (category_id : Option Int)
    (days today : Int) (tbl : List StoredForecast) : List StoredForecast :=
  let windowed := tbl.filter (fun r => today ≤ r.forecast_date && r.forecast_date ≤ today + days)
  match product_id with
  | some p => if p == "" then windowed else windowed.filter (fun r => r.product_id == some p)
  | none => windowed

/-- InsightsGenerator._get_historical_data (insights_generator.py lines
174-191): sales rows from today minus the window up to but excluding
today; the product filter is applied only for a truthy product id and
the category id argument is accepted but never used. -/
def getHistoricalForInsights (product_id : Option String) (category_id : Option Int)
    (days today : Int) (tbl : List SalesHistoryRow) : List SalesHistoryRow :=
  let windowed := tbl.filter (fun r => today - days ≤ r.sale_date && r.sale_date < today)
  match product_id with
  | some p => if p == "" then windowed else windowed.filter (fun r => r.product_id == p)
  | none => windowed

/-! Theorems.  Shared helper lemmas come first; each claim is settled by
a single named theorem, with a counterexample theorem where the claim as
stated fails on the code and a witness theorem where hypotheses occur. -/

theorem inverseMapeWeights_sum (ms mp : ℚ) (hms : 0 ≤ ms) (hmp : 0 ≤ mp) :
    (inverseMapeWeights ms mp).1 + (inverseMapeWeights ms mp).2 = 1 ∧
    (ms < mp → (inverseMapeWeights ms mp).2 < (inverseMapeWeights ms mp).1) := by
  have hse : (0:ℚ) < ms + 1/1000000 := by linarith
  have hpe : (0:ℚ) < mp + 1/1000000 := by linarith
  have hsi : (0:ℚ) < 1/(ms + 1/1000000) := by positivity
  have hpi : (0:ℚ) < 1/(mp + 1/1000000) := by positivity
  have htot : (0:ℚ) < 1/(ms + 1/1000000) + 1/(mp + 1/1000000) := by linarith
  constructor
  · simp only [inverseMapeWeights]
    rw [div_add_div_same, div_self (ne_of_gt htot)]
  · intro hlt
    have hinv : 1/(mp + 1/1000000) < 1/(ms + 1/1000000) :=
      one_div_lt_one_div_of_lt hse (by linarith)
    simp only [inverseMapeWeights]
    exact (div_lt_div_iff_of_pos_right htot).mpr hinv

/-- C3 counterexample: with constructor weights (0, 0) the sum is not
positive, normalization is skipped, and the stored weights sum to 0 —
not to 1 within 1e-3. -/
theorem normalizeWeights_zero_input_unnormalized :
    normalizeWeights 0 0 = (0, 0) ∧
    ¬ |(normalizeWeights 0 0).1 + (normalizeWeights 0 0).2 - 1| ≤ 1/1000 := by
  constructor
  · norm_num [normalizeWeights]
  · norm_num [normalizeWeights]

/-- C3 (amended): whenever the two constructor weights have positive
sum — in particular for the degenerate input (3, 1) — the weights stored
by the ensemble constructor sum to exactly 1, hence to 1 within the
claimed 1e-3 tolerance; when the sum is not positive (for example the
pair (0, 0)) normalization is skipped and the weights are left as
given. -/
theorem normalizeWeights_sum_one (sw pw : ℚ) (h : 0 < sw + pw) :
    (normalizeWeights sw pw).1 + (normalizeWeights sw pw).2 = 1 ∧
    |(normalizeWeights sw pw).1 + (normalizeWeights sw pw).2 - 1| ≤ 1/1000 := by
  have hne : sw + pw ≠ 0 := ne_of_gt h
  have h1 : (normalizeWeights sw pw).1 + (normalizeWeights sw pw).2 = 1 := by
    simp only [normalizeWeights, if_pos h]
    rw [div_add_div_same, div_self hne]
  refine ⟨h1, ?_⟩
  rw [h1]
  norm_num

/-- C3 witness: the amended theorem at the degenerate input (3, 1). -/
theorem normalizeWeights_sum_one_at_three_one :
    (normalizeWeights 3 1).1 + (normalizeWeights 3 1).2 = 1 ∧
    |(normalizeWeights 3 1).1 + (normalizeWeights 3 1).2 - 1| ≤ 1/1000 :=
  normalizeWeights_sum_one 3 1 (by norm_num)

/-- C4 counterexample: when SARIMA training failed, the SARIMA handle is
unset, its validation evaluation raises, and _optimize_weights falls
back to equal weights (0.5, 0.5) — not to the inverse-MAPE formula with
the failed component contributing MAPE = 100 (here Prophet evaluated to
MAPE 10, so the formula would give SARIMA only about 0.09). -/
theorem optimizeWeightsRun_failed_sarima_fallback :
    optimizeWeightsRun (sarimaEvalOutcome false none) (EvalOutcome.ok 10) = (1/2, 1/2) ∧
    optimizeWeightsRun (sarimaEvalOutcome false none) (EvalOutcome.ok 10)
      ≠ inverseMapeWeights 100 10 := by
  refine ⟨rfl, ?_⟩
  intro h
  have h1 : (1:ℚ)/2 = (inverseMapeWeights 100 10).1 := congrArg Prod.fst h
  have h2 : (inverseMapeWeights 100 10).1 = 10000001/110000002 := by
    norm_num [inverseMapeWeights]
  rw [h2] at h1
  norm_num at h1

/-- C4 (amended): when neither component's validation evaluation raises
— in particular whenever both components trained successfully — the
ensemble weights are exactly the inverse-MAPE normalization
weight_i = (1/(MAPE_i + ε)) / Σ (1/(MAPE_j + ε)) with ε = 1e-6, where an
evaluation returning a failure result contributes MAPE = 100; the
weights sum to 1 and the component with strictly lower MAPE receives the
strictly larger weight.  A component that failed training, however,
raises on evaluation and the ensemble then falls back to equal weights
(1/2, 1/2) instead of applying the formula with MAPE = 100. -/
theorem optimizeWeightsRun_inverse_mape
    (s p : EvalOutcome)
    (hs : s ≠ EvalOutcome.raisedValueError) (hp : p ≠ EvalOutcome.raisedValueError)
    (hms : 0 ≤ evalMape s) (hmp : 0 ≤ evalMape p) :
    optimizeWeightsRun s p = inverseMapeWeights (evalMape s) (evalMape p) ∧
    (optimizeWeightsRun s p).1 + (optimizeWeightsRun s p).2 = 1 ∧
    (evalMape s < evalMape p →
      (optimizeWeightsRun s p).2 < (optimizeWeightsRun s p).1) ∧
    optimizeWeightsRun EvalOutcome.raisedValueError p = (1/2, 1/2) ∧
    optimizeWeightsRun s EvalOutcome.raisedValueError = (1/2, 1/2) := by
  have heq : optimizeWeightsRun s p = inverseMapeWeights (evalMape s) (evalMape p) := by
    cases s <;> cases p <;> first
      | exact absurd rfl hs
      | exact absurd rfl hp
      | rfl
  have hsum := inverseMapeWeights_sum (evalMape s) (evalMape p) hms hmp
  refine ⟨heq, ?_, ?_, ?_, ?_⟩
  · rw [heq]; exact hsum.1
  · intro hlt; rw [heq]; exact hsum.2 hlt
  · cases p <;> rfl
  · cases s <;> first
      | exact absurd rfl hs
      | rfl

/-- C4 witness: the amended theorem at evaluation MAPEs 10 and 20. -/
theorem optimizeWeightsRun_inverse_mape_at_ten_twenty :
    (optimizeWeightsRun (EvalOutcome.ok 10) (EvalOutcome.ok 20)).1 +
      (optimizeWeightsRun (EvalOutcome.ok 10) (EvalOutcome.ok 20)).2 = 1 ∧
    (optimizeWeightsRun (EvalOutcome.ok 10) (EvalOutcome.ok 20)).2 <
      (optimizeWeightsRun (EvalOutcome.ok 10) (EvalOutcome.ok 20)).1 :=
  ⟨(optimizeWeightsRun_inverse_mape (EvalOutcome.ok 10) (EvalOutcome.ok 20)
      (by simp) (by simp) (by norm_num [evalMape]) (by norm_num [evalMape])).2.1,
   (optimizeWeightsRun_inverse_mape (EvalOutcome.ok 10) (EvalOutcome.ok 20)
      (by simp) (by simp) (by norm_num [evalMape])
      (by norm_num [evalMape])).2.2.1 (by norm_num [evalMape])⟩

/-- C9 counterexample: a Prophet train call that reaches model
construction but whose fit then fails reports training failure yet
leaves the model object set, so a subsequent predict passes the
untrained guard and returns a tagged failure result instead of raising
ValueError. -/
theorem prophetPredict_after_failed_train_returns :
    (prophetTrain initProphet true false).2 = false ∧
    prophetPredictCall (prophetTrain initProphet true false).1
        (ForecastRunResult.mk false (some ("Prophet prediction failed")) 0)
      = CallOutcome.returns (ForecastRunResult.mk false (some ("Prophet prediction failed")) 0) :=
  ⟨rfl, rfl⟩

/-- C9 (amended): on a freshly constructed model that has never been
trained, predict and evaluate raise the untrained-model ValueError for
all three components (Seasonal Autoregressive, Additive
Trend/Seasonality, Ensemble) rather than returning a tagged failure
result.  After a train call that reported failure, this holds for the
SARIMA component (its fitted handle is only set by a successful fit) but
not for Prophet, whose guard only checks that a model object was
constructed — there predict returns a tagged failure result (see the
counterexample). -/
theorem untrained_predict_evaluate_raise {α : Type} (body : α) :
    sarimaPredictCall initSARIMA body = CallOutcome.raisedValueError ∧
    sarimaEvaluateCall initSARIMA body = CallOutcome.raisedValueError ∧
    prophetPredictCall initProphet body = CallOutcome.raisedValueError ∧
    prophetEvaluateCall initProphet body = CallOutcome.raisedValueError ∧
    ensemblePredictCall initEnsemble body = CallOutcome.raisedValueError ∧
    ensembleEvaluateCall initEnsemble body = CallOutcome.raisedValueError ∧
    (∀ st : SARIMAState, (sarimaTrain st false).2 = false ∧
      sarimaPredictCall (sarimaTrain initSARIMA false).1 body = CallOutcome.raisedValueError) :=
  ⟨rfl, rfl, rfl, rfl, rfl, rfl, fun _ => ⟨rfl, rfl⟩⟩

/-- C9 witness: the amended theorem at a concrete result body. -/
theorem untrained_predict_evaluate_raise_at_sample :
    sarimaPredictCall initSARIMA (ForecastRunResult.mk true none 30)
      = CallOutcome.raisedValueError ∧
    ensemblePredictCall initEnsemble (ForecastRunResult.mk true none 30)
      = CallOutcome.raisedValueError :=
  ⟨(untrained_predict_evaluate_raise (ForecastRunResult.mk true none 30)).1,
   (untrained_predict_evaluate_raise (ForecastRunResult.mk true none 30)).2.2.2.2.1⟩

/-- C5: a non-empty gap-filled series shorter than the configured
minimum history makes generate_forecast return a tagged failure result
(success false, zero forecasts created) whose message starts with
"Insufficient data", while an empty series yields the distinct
"no data" failure result; neither path raises. -/
theorem generateForecastGate_insufficient (n : Nat)
    (h0 : 0 < n) (hn : n < MIN_HISTORY_DAYS) :
    (∃ rest, generateForecastGate n =
      some { success := false, error := some ("Insufficient data" ++ rest),
             forecasts_created := 0 }) ∧
    generateForecastGate 0 =
      some { success := false, error := some ("No historical data available"),
             forecasts_created := 0 } := by
  have hsplit : ∀ X : String,
      "Insufficient data: " ++ X = "Insufficient data" ++ (": " ++ X) := by
    intro X
    rw [← String.append_assoc]
    rfl
  have hne : (n == 0) = false := by
    simp [Nat.pos_iff_ne_zero.mp h0]
  refine ⟨⟨": " ++ toString n ++ " days available, " ++ toString MIN_HISTORY_DAYS ++
            " required", ?_⟩, rfl⟩
  simp only [generateForecastGate, hne, Bool.false_eq_true, if_false, if_pos hn,
    Option.some.injEq, ForecastRunResult.mk.injEq, true_and, and_true]
  simp only [String.append_assoc]
  exact hsplit _

/-- C5 witness: the gate at the 30-day history of the end-to-end
scenario in the specification. -/
theorem generateForecastGate_insufficient_at_thirty :
    (∃ rest, generateForecastGate 30 =
      some { success := false, error := some ("Insufficient data" ++ rest),
             forecasts_created := 0 }) ∧
    generateForecastGate 0 =
      some { success := false, error := some ("No historical data available"),
             forecasts_created := 0 } :=
  generateForecastGate_insufficient 30 (by norm_num) (by decide)

theorem mem_zipWith_exists {α β γ : Type} (f : α → β → γ) :
    ∀ (l1 : List α) (l2 : List β) (x : γ), x ∈ List.zipWith f l1 l2 →
      ∃ a ∈ l1, ∃ b ∈ l2, x = f a b := by
  intro l1
  induction l1 with
  | nil => intro l2 x hx; simp at hx
  | cons a t ih =>
    intro l2 x hx
    cases l2 with
    | nil => simp at hx
    | cons b t2 =>
      simp only [List.zipWith_cons_cons, List.mem_cons] at hx
      rcases hx with h | h
      · exact ⟨a, by simp, b, by simp, h⟩
      · obtain ⟨a1, ha, b1, hb, hx⟩ := ih t2 x h
        exact ⟨a1, by simp [ha], b1, by simp [hb], hx⟩

theorem ensembleCombine_specOk (wS wP cl : ℚ) (s p : ForecastPoint)
    (hwS : 0 ≤ wS) (hwP : 0 ≤ wP) (hs : pointOrdered s) (hp : pointOrdered p) :
    pointSpecOk (ensembleCombine wS wP cl s p) := by
  obtain ⟨hs1, hs2⟩ := hs
  obtain ⟨hp1, hp2⟩ := hp
  have hl : wS * s.confidence_interval_lower + wP * p.confidence_interval_lower ≤
      wS * s.predicted_quantity + wP * p.predicted_quantity := by
    have h1 := mul_le_mul_of_nonneg_left hs1 hwS
    have h2 := mul_le_mul_of_nonneg_left hp1 hwP
    linarith
  have hu : wS * s.predicted_quantity + wP * p.predicted_quantity ≤
      wS * s.confidence_interval_upper + wP * p.confidence_interval_upper := by
    have h1 := mul_le_mul_of_nonneg_left hs2 hwS
    have h2 := mul_le_mul_of_nonneg_left hp2 hwP
    linarith
  exact ⟨⟨max_le_max le_rfl hl, max_le_max le_rfl hu⟩,
         le_max_left 0 _, le_max_left 0 _, le_max_left 0 _⟩

/-- C2 counterexample: when Prophet fails to produce a forecast and
SARIMA succeeds, the SARIMA result is returned verbatim; a raw SARIMA
point whose statsmodels interval lower bound is negative then appears
unchanged in the successful ensemble output, violating the claimed
non-negativity of all three values. -/
theorem ensemblePredict_passthrough_negative :
    ensemblePredict (1/2) (1/2) (19/20)
        (some [sarimaForecastPoint 0 2 (-5) 6 (19/20)]) none
      = some [sarimaForecastPoint 0 2 (-5) 6 (19/20)] ∧
    ¬ (0:ℚ) ≤ (sarimaForecastPoint 0 2 (-5) 6 (19/20)).confidence_interval_lower := by
  refine ⟨rfl, ?_⟩
  norm_num [sarimaForecastPoint]

/-- C2 (amended): when both components produce forecasts, every point of
the successful ensemble output satisfies confidence_interval_lower ≤
predicted_quantity ≤ confidence_interval_upper with all three values
≥ 0, provided the ensemble weights are non-negative and each component
point is itself interval-ordered.  In the graceful-degradation case the
survivor's forecasts are returned verbatim, so those guarantees carry
over only as far as the survivor provides them: Prophet points are
clamped to ≥ 0 but raw SARIMA points are not (see the
counterexample). -/
theorem ensemblePredict_bounds
    (wS wP cl : ℚ) (sf pf : List ForecastPoint)
    (hwS : 0 ≤ wS) (hwP : 0 ≤ wP)
    (hs : ∀ fp ∈ sf, pointOrdered fp) (hp : ∀ fp ∈ pf, pointOrdered fp) :
    (∀ out, ensemblePredict wS wP cl (some sf) (some pf) = some out →
      ∀ fp ∈ out, pointSpecOk fp) ∧
    ensemblePredict wS wP cl (some sf) none = some sf ∧
    ensemblePredict wS wP cl none (some pf) = some pf ∧
    ensemblePredict wS wP cl none none = (none : Option (List ForecastPoint)) := by
  refine ⟨?_, rfl, rfl, rfl⟩
  intro out hout fp hfp
  have hzip : out = List.zipWith (ensembleCombine wS wP cl) sf pf := by
    have := hout.symm
    simpa [ensemblePredict] using this
  subst hzip
  obtain ⟨a, ha, b, hb, hfab⟩ := mem_zipWith_exists _ sf pf fp hfp
  subst hfab
  exact ensembleCombine_specOk wS wP cl a b hwS hwP (hs a ha) (hp b hb)

/-- C2 witness: the amended theorem at equal weights on a single
interval-ordered SARIMA point and a single Prophet point. -/
theorem ensemblePredict_bounds_at_sample :
    pointSpecOk (ensembleCombine (1/2) (1/2) (19/20)
      (sarimaForecastPoint 0 2 1 3 (19/20)) (prophetForecastPoint 0 4 0 6 (19/20))) :=
  (ensemblePredict_bounds (1/2) (1/2) (19/20)
      [sarimaForecastPoint 0 2 1 3 (19/20)] [prophetForecastPoint 0 4 0 6 (19/20)]
      (by norm_num) (by norm_num)
      (by intro fp hfp
          rw [List.mem_singleton] at hfp
          subst hfp
          exact ⟨by norm_num [sarimaForecastPoint], by norm_num [sarimaForecastPoint]⟩)
      (by intro fp hfp
          rw [List.mem_singleton] at hfp
          subst hfp
          exact ⟨by norm_num [prophetForecastPoint], by norm_num [prophetForecastPoint]⟩)).1
    (List.zipWith (ensembleCombine (1/2) (1/2) (19/20))
      [sarimaForecastPoint 0 2 1 3 (19/20)] [prophetForecastPoint 0 4 0 6 (19/20)])
    rfl
    (ensembleCombine (1/2) (1/2) (19/20)
      (sarimaForecastPoint 0 2 1 3 (19/20)) (prophetForecastPoint 0 4 0 6 (19/20)))
    (by simp)

theorem keyMatches_after_update (pid : Option String) (d : Int) (h : String)
    (r : StoredForecast) (fp : ForecastPoint) (mn mv : String) :
    keyMatches pid d h
      { r with predicted_quantity := fp.predicted_quantity,
               confidence_interval_lower := fp.confidence_interval_lower,
               confidence_interval_upper := fp.confidence_interval_upper,
               confidence_score := fp.confidence_score,
               model_name := mn, model_version := mv }
      = keyMatches pid d h r := rfl

/-- C1 counterexample: storing the same single forecast twice with no
product id (the SKU/category entity filters) duplicates the row: the
duplicate check compares product_id against NULL while the insert stores
the placeholder id, so the second write inserts again and the row count
for the (placeholder id, date, horizon) key grows from 1 to 2. -/
theorem storeForecasts_missing_product_id_duplicates :
    countKey (storeForecasts none (some ("SKU-1")) "SARIMA" "1.0"
        [⟨100, 5, 4, 6, 19/20⟩] []) (some defaultProductId) 100 "7-day" = 1 ∧
    countKey (storeForecasts none (some ("SKU-1")) "SARIMA" "1.0" [⟨100, 5, 4, 6, 19/20⟩]
        (storeForecasts none (some ("SKU-1")) "SARIMA" "1.0" [⟨100, 5, 4, 6, 19/20⟩] []))
      (some defaultProductId) 100 "7-day" = 2 :=
  ⟨rfl, rfl⟩

/-- C1 (amended): when a product id is supplied, upserting a forecast
point whose (product id, forecast date, horizon label) key already has a
live row leaves the row count for that key unchanged and afterwards the
first live row for the key carries the second write's values (quantity,
both bounds, confidence, model name and version).  When no product id is
supplied — the SKU and category entity filters — the duplicate check
compares product_id to NULL while inserts store a placeholder id, so a
repeated write duplicates the row instead (see the counterexample). -/
theorem upsertForecast_existing_updates_in_place
    (p : String) (sku : Option String) (horizon mn mv : String)
    (fp : ForecastPoint) (tbl : List StoredForecast)
    (hex : 1 ≤ countKey tbl (some p) fp.forecast_date horizon) :
    countKey (upsertForecast (some p) sku horizon mn mv fp tbl)
        (some p) fp.forecast_date horizon
      = countKey tbl (some p) fp.forecast_date horizon ∧
    ∃ r, firstKeyRow (upsertForecast (some p) sku horizon mn mv fp tbl)
          (some p) fp.forecast_date horizon = some r ∧
      r.predicted_quantity = fp.predicted_quantity ∧
      r.confidence_interval_lower = fp.confidence_interval_lower ∧
      r.confidence_interval_upper = fp.confidence_interval_upper ∧
      r.confidence_score = fp.confidence_score ∧
      r.model_name = mn ∧ r.model_version = mv := by
  induction tbl with
  | nil => simp [countKey] at hex
  | cons r rs ih =>
    cases hkm : keyMatches (some p) fp.forecast_date horizon r with
    | true =>
      have hup : upsertForecast (some p) sku horizon mn mv fp (r :: rs)
          = { r with predicted_quantity := fp.predicted_quantity,
                     confidence_interval_lower := fp.confidence_interval_lower,
                     confidence_interval_upper := fp.confidence_interval_upper,
                     confidence_score := fp.confidence_score,
                     model_name := mn, model_version := mv } :: rs := by
        simp [upsertForecast, hkm]
      rw [hup]
      constructor
      · simp [countKey, List.filter_cons, keyMatches_after_update, hkm]
      · refine ⟨{ r with predicted_quantity := fp.predicted_quantity,
                         confidence_interval_lower := fp.confidence_interval_lower,
                         confidence_interval_upper := fp.confidence_interval_upper,
                         confidence_score := fp.confidence_score,
                         model_name := mn, model_version := mv },
                 ?_, rfl, rfl, rfl, rfl, rfl, rfl⟩
        simp [firstKeyRow, List.filter_cons, keyMatches_after_update, hkm]
    | false =>
      have hup : upsertForecast (some p) sku horizon mn mv fp (r :: rs)
          = r :: upsertForecast (some p) sku horizon mn mv fp rs := by
        simp [upsertForecast, hkm]
      have hex2 : 1 ≤ countKey rs (some p) fp.forecast_date horizon := by
        simpa [countKey, List.filter_cons, hkm] using hex
      obtain ⟨hcnt, hfirst⟩ := ih hex2
      rw [hup]
      constructor
      · simpa [countKey, List.filter_cons, hkm] using hcnt
      · simpa [firstKeyRow, List.filter_cons, hkm] using hfirst

/-- C1 witness: the amended theorem on a one-row table holding the same
(product id, date, horizon) key with older values. -/
theorem upsertForecast_existing_updates_in_place_at_sample :
    countKey (upsertForecast (some ("P1")) (some ("S")) "30-day" "SARIMA" "1.0"
        ⟨5, 7, 6, 8, 19/20⟩
        [{ product_id := some ("P1"), sku := "S", forecast_date := 5,
           forecast_horizon := "30-day", predicted_quantity := 1,
           confidence_interval_lower := 0, confidence_interval_upper := 2,
           confidence_score := 9/10, model_name := "Prophet", model_version := "0.9" }])
        (some ("P1")) 5 "30-day"
      = countKey
        [{ product_id := some ("P1"), sku := "S", forecast_date := 5,
           forecast_horizon := "30-day", predicted_quantity := 1,
           confidence_interval_lower := 0, confidence_interval_upper := 2,
           confidence_score := 9/10, model_name := "Prophet", model_version := "0.9" }]
        (some ("P1")) 5 "30-day" ∧
    ∃ r, firstKeyRow (upsertForecast (some ("P1")) (some ("S")) "30-day" "SARIMA" "1.0"
          ⟨5, 7, 6, 8, 19/20⟩
          [{ product_id := some ("P1"), sku := "S", forecast_date := 5,
             forecast_horizon := "30-day", predicted_quantity := 1,
             confidence_interval_lower := 0, confidence_interval_upper := 2,
             confidence_score := 9/10, model_name := "Prophet", model_version := "0.9" }])
          (some ("P1")) 5 "30-day" = some r ∧
      r.predicted_quantity = 7 ∧
      r.confidence_interval_lower = 6 ∧
      r.confidence_interval_upper = 8 ∧
      r.confidence_score = 19/20 ∧
      r.model_name = "SARIMA" ∧ r.model_version = "1.0" :=
  upsertForecast_existing_updates_in_place "P1" (some ("S")) "30-day" "SARIMA" "1.0"
    ⟨5, 7, 6, 8, 19/20⟩
    [{ product_id := some ("P1"), sku := "S", forecast_date := 5,
       forecast_horizon := "30-day", predicted_quantity := 1,
       confidence_interval_lower := 0, confidence_interval_upper := 2,
       confidence_score := 9/10, model_name := "Prophet", model_version := "0.9" }]
    (by decide)

/-- C10: the two insight queries never consult the category filter —
running them with any category id gives the same rows as with none —
and with no product id every in-window row is included, whatever entity
or category it belongs to. -/
theorem insightsQueries_ignore_category
    (product_id : Option String) (c days today : Int)
    (ftbl : List StoredForecast) (stbl : List SalesHistoryRow) :
    getForecastsForInsights product_id (some c) days today ftbl
      = getForecastsForInsights product_id none days today ftbl ∧
    getHistoricalForInsights product_id (some c) days today stbl
      = getHistoricalForInsights product_id none days today stbl ∧
    (∀ r ∈ ftbl, today ≤ r.forecast_date → r.forecast_date ≤ today + days →
      r ∈ getForecastsForInsights none (some c) days today ftbl) ∧
    (∀ r ∈ stbl, today - days ≤ r.sale_date → r.sale_date < today →
      r ∈ getHistoricalForInsights none (some c) days today stbl) := by
  refine ⟨rfl, rfl, ?_, ?_⟩
  · intro r hr h1 h2
    simp only [getForecastsForInsights]
    exact List.mem_filter.mpr ⟨hr, by simp [h1, h2]⟩
  · intro r hr h1 h2
    simp only [getHistoricalForInsights]
    exact List.mem_filter.mpr ⟨hr, by simp [h1, h2]⟩

/-- C10 witness: querying with category id 1 and no product id still
returns the sales row of category 2. -/
theorem insightsQueries_ignore_category_at_sample :
    (⟨"B", 2, 6, 20, 200⟩ : SalesHistoryRow) ∈
      getHistoricalForInsights none (some 1) 90 10
        [⟨"A", 1, 5, 10, 100⟩, ⟨"B", 2, 6, 20, 200⟩] :=
  (insightsQueries_ignore_category none 1 90 10 []
      [⟨"A", 1, 5, 10, 100⟩, ⟨"B", 2, 6, 20, 200⟩]).2.2.2
    ⟨"B", 2, 6, 20, 200⟩ (by simp) (by norm_num) (by norm_num)

/-- C7: evaluation of the embedded accuracy report at a failing input.
Two same-model forecasts in range carry realized actuals whose signed
errors are +5 and −5; the report succeeds, and its per-model mae is the
plain mean of the signed errors — 0 — while the mean absolute error the
claim states is 5.  The stored signed error follows the specification's
description of Forecast.calculate_error (the class itself is absent from
the source tree); the divergence sits in get_accuracy_report
(forecaster.py line 463), which averages the errors without taking
absolute values. -/
theorem getAccuracyReport_mae_not_absolute :
    reportSucceeds
        [calculate_error
           { product_id := some ("P"), sku := "S", forecast_date := 1,
             forecast_horizon := "7-day", predicted_quantity := 10,
             confidence_interval_lower := 8, confidence_interval_upper := 12,
             confidence_score := 19/20, model_name := "SARIMA", model_version := "1.0",
             actual_quantity := some 15 },
         calculate_error
           { product_id := some ("P"), sku := "S", forecast_date := 2,
             forecast_horizon := "7-day", predicted_quantity := 10,
             confidence_interval_lower := 8, confidence_interval_upper := 12,
             confidence_score := 19/20, model_name := "SARIMA", model_version := "1.0",
             actual_quantity := some 5 }] 0 10 = true ∧
    reportMae
        [calculate_error
           { product_id := some ("P"), sku := "S", forecast_date := 1,
             forecast_horizon := "7-day", predicted_quantity := 10,
             confidence_interval_lower := 8, confidence_interval_upper := 12,
             confidence_score := 19/20, model_name := "SARIMA", model_version := "1.0",
             actual_quantity := some 15 },
         calculate_error
           { product_id := some ("P"), sku := "S", forecast_date := 2,
             forecast_horizon := "7-day", predicted_quantity := 10,
             confidence_interval_lower := 8, confidence_interval_upper := 12,
             confidence_score := 19/20, model_name := "SARIMA", model_version := "1.0",
             actual_quantity := some 5 }] 0 10 "SARIMA" = 0 ∧
    specModelMae
        [calculate_error
           { product_id := some ("P"), sku := "S", forecast_date := 1,
             forecast_horizon := "7-day", predicted_quantity := 10,
             confidence_interval_lower := 8, confidence_interval_upper := 12,
             confidence_score := 19/20, model_name := "SARIMA", model_version := "1.0",
             actual_quantity := some 15 },
         calculate_error
           { product_id := some ("P"), sku := "S", forecast_date := 2,
             forecast_horizon := "7-day", predicted_quantity := 10,
             confidence_interval_lower := 8, confidence_interval_upper := 12,
             confidence_score := 19/20, model_name := "SARIMA", model_version := "1.0",
             actual_quantity := some 5 }] 0 10 "SARIMA" = 5 ∧
    (0:ℚ) ≠ 5 := by
  refine ⟨?_, ?_, ?_, by norm_num⟩ <;>
    norm_num [reportSucceeds, reportRows, reportMae, specModelMae, calculate_error,
      reportErrorValue, List.filter]

theorem lt_foldr_max_iff (l : List ℚ) (t c : ℚ) :
    c < l.foldr max t ↔ c < t ∨ ∃ x ∈ l, c < x := by
  induction l with
  | nil => simp
  | cons a l ih =>
    simp only [List.foldr_cons, lt_max_iff, ih, List.mem_cons]
    constructor
    · rintro (h | h | ⟨x, hx, hcx⟩)
      · exact Or.inr ⟨a, Or.inl rfl, h⟩
      · exact Or.inl h
      · exact Or.inr ⟨x, Or.inr hx, hcx⟩
    · rintro (h | ⟨x, hx | hx, hcx⟩)
      · exact Or.inr (Or.inl h)
      · subst hx
        exact Or.inl hcx
      · exact Or.inr (Or.inr ⟨x, hx, hcx⟩)

/-- C8: over a non-empty forecast window and non-empty historical
baseline with non-negative standard deviation, the demand-spike detector
emits an insight (at most one, by construction) iff some forecast point
exceeds mean + 2σ, and the emitted severity is critical iff some point
exceeds mean + 3σ, high iff some point exceeds mean + 2.5σ but none
exceeds mean + 3σ, and medium iff some point exceeds mean + 2σ but none
exceeds mean + 2.5σ. -/
theorem detectDemandSpikes_characterization (fqs hqs : List ℚ) (σ : ℚ)
    (hf : fqs ≠ []) (hh : hqs ≠ []) (hσ : 0 ≤ σ) :
    ((detectDemandSpikes fqs hqs σ).isSome = true ↔
      ∃ q ∈ fqs, histMean hqs + 2 * σ < q) ∧
    (detectDemandSpikes fqs hqs σ = some Severity.critical ↔
      ∃ q ∈ fqs, histMean hqs + 3 * σ < q) ∧
    (detectDemandSpikes fqs hqs σ = some Severity.high ↔
      ((∃ q ∈ fqs, histMean hqs + (5/2) * σ < q) ∧
       ¬ ∃ q ∈ fqs, histMean hqs + 3 * σ < q)) ∧
    (detectDemandSpikes fqs hqs σ = some Severity.medium ↔
      ((∃ q ∈ fqs, histMean hqs + 2 * σ < q) ∧
       ¬ ∃ q ∈ fqs, histMean hqs + (5/2) * σ < q)) := by
  have hguard : (fqs.isEmpty || hqs.isEmpty) = false := by
    simp [hf, hh]
  have hrun : detectDemandSpikes fqs hqs σ =
      (if (fqs.filter (fun q => histMean hqs + 2 * σ < q)).isEmpty then none
       else if histMean hqs + 3 * σ <
           (fqs.filter (fun q => histMean hqs + 2 * σ < q)).foldr max
             (histMean hqs + 2 * σ) then some Severity.critical
       else if histMean hqs + (5/2) * σ <
           (fqs.filter (fun q => histMean hqs + 2 * σ < q)).foldr max
             (histMean hqs + 2 * σ) then some Severity.high
       else some Severity.medium) := by
    simp only [detectDemandSpikes, hguard, Bool.false_eq_true, if_false]
  by_cases hsp : (fqs.filter (fun q => histMean hqs + 2 * σ < q)).isEmpty = true
  · have hnone : detectDemandSpikes fqs hqs σ = none := by
      rw [hrun, if_pos hsp]
    have hnospike : ∀ q ∈ fqs, ¬ (histMean hqs + 2 * σ < q) := by
      have hnil := List.isEmpty_iff.mp hsp
      intro q hq hlt
      have := List.filter_eq_nil_iff.mp hnil q hq
      simp only [decide_eq_true_eq] at this
      exact this hlt
    have hno2 : ¬ ∃ q ∈ fqs, histMean hqs + 2 * σ < q := by
      rintro ⟨q, hq, hlt⟩
      exact hnospike q hq hlt
    have hno3 : ¬ ∃ q ∈ fqs, histMean hqs + 3 * σ < q := by
      rintro ⟨q, hq, hlt⟩
      exact hnospike q hq (by linarith)
    have hno25 : ¬ ∃ q ∈ fqs, histMean hqs + (5/2) * σ < q := by
      rintro ⟨q, hq, hlt⟩
      exact hnospike q hq (by linarith)
    refine ⟨?_, ?_, ?_, ?_⟩
    · rw [hnone]
      exact iff_of_false (by simp) hno2
    · rw [hnone]
      exact iff_of_false (by simp) hno3
    · rw [hnone]
      exact iff_of_false (by simp) (fun h => hno25 h.1)
    · rw [hnone]
      exact iff_of_false (by simp) (fun h => hno2 h.1)
  · have hne : fqs.filter (fun q => histMean hqs + 2 * σ < q) ≠ [] := by
      simpa [List.isEmpty_iff] using hsp
    have hex2 : ∃ q ∈ fqs, histMean hqs + 2 * σ < q := by
      obtain ⟨x, hx⟩ := List.exists_mem_of_ne_nil _ hne
      have hmf := List.mem_filter.mp hx
      exact ⟨x, hmf.1, by simpa using hmf.2⟩
    have hiff : ∀ c : ℚ, histMean hqs + 2 * σ ≤ c →
        ((c < (fqs.filter (fun q => histMean hqs + 2 * σ < q)).foldr max
            (histMean hqs + 2 * σ)) ↔ ∃ q ∈ fqs, c < q) := by
      intro c hc
      rw [lt_foldr_max_iff]
      constructor
      · rintro (h | ⟨x, hx, hcx⟩)
        · exact absurd h (by linarith)
        · have hmf := List.mem_filter.mp hx
          exact ⟨x, hmf.1, hcx⟩
      · rintro ⟨q, hq, hlt⟩
        refine Or.inr ⟨q, List.mem_filter.mpr ⟨hq, ?_⟩, hlt⟩
        simp only [decide_eq_true_eq]
        linarith
    have h3iff := hiff (histMean hqs + 3 * σ) (by linarith)
    have h25iff := hiff (histMean hqs + (5/2) * σ) (by linarith)
    by_cases h3 : histMean hqs + 3 * σ <
        (fqs.filter (fun q => histMean hqs + 2 * σ < q)).foldr max (histMean hqs + 2 * σ)
    · have hsome : detectDemandSpikes fqs hqs σ = some Severity.critical := by
        rw [hrun, if_neg hsp, if_pos h3]
      refine ⟨?_, ?_, ?_, ?_⟩
      · rw [hsome]
        exact iff_of_true (by simp) hex2
      · rw [hsome]
        exact iff_of_true rfl (h3iff.mp h3)
      · rw [hsome]
        refine iff_of_false (by simp) ?_
        rintro ⟨-, hno3⟩
        exact hno3 (h3iff.mp h3)
      · rw [hsome]
        refine iff_of_false (by simp) ?_
        rintro ⟨-, hno25⟩
        obtain ⟨q, hq, hlt⟩ := h3iff.mp h3
        exact hno25 ⟨q, hq, by linarith⟩
    · by_cases h25 : histMean hqs + (5/2) * σ <
          (fqs.filter (fun q => histMean hqs + 2 * σ < q)).foldr max (histMean hqs + 2 * σ)
      · have hsome : detectDemandSpikes fqs hqs σ = some Severity.high := by
          rw [hrun, if_neg hsp, if_neg h3, if_pos h25]
        refine ⟨?_, ?_, ?_, ?_⟩
        · rw [hsome]
          exact iff_of_true (by simp) hex2
        · rw [hsome]
          refine iff_of_false (by simp) ?_
          intro hP
          exact h3 (h3iff.mpr hP)
        · rw [hsome]
          exact iff_of_true rfl ⟨h25iff.mp h25, fun hP => h3 (h3iff.mpr hP)⟩
        · rw [hsome]
          refine iff_of_false (by simp) ?_
          rintro ⟨-, hno⟩
          exact hno (h25iff.mp h25)
      · have hsome : detectDemandSpikes fqs hqs σ = some Severity.medium := by
          rw [hrun, if_neg hsp, if_neg h3, if_neg h25]
        refine ⟨?_, ?_, ?_, ?_⟩
        · rw [hsome]
          exact iff_of_true (by simp) hex2
        · rw [hsome]
          refine iff_of_false (by simp) ?_
          intro hP
          exact h3 (h3iff.mpr hP)
        · rw [hsome]
          refine iff_of_false (by simp) ?_
          rintro ⟨h5, -⟩
          exact h25 (h25iff.mpr h5)
        · rw [hsome]
          exact iff_of_true rfl ⟨hex2, fun h5 => h25 (h25iff.mpr h5)⟩

/-- C8 witness: a single forecast point of 200 units against a 90-day
history averaging 50 with standard deviation 10 yields the spike insight
at severity critical (in particular, high or critical). -/
theorem detectDemandSpikes_at_scenario :
    detectDemandSpikes [200] (List.replicate 90 (50:ℚ)) 10 = some Severity.critical :=
  (detectDemandSpikes_characterization [200] (List.replicate 90 (50:ℚ)) 10
      (by simp) (by simp) (by norm_num)).2.1.mpr
    ⟨200, by simp, by
      have hm : histMean (List.replicate 90 (50:ℚ)) = 50 := by
        rw [histMean, List.sum_replicate, List.length_replicate, nsmul_eq_mul]
        norm_num
      rw [hm]
      norm_num⟩

theorem dayAgg_eq_none_of (rows : List SaleRow) (x : Int)
    (h : ∀ s ∈ rows, s.sale_date ≠ x) : dayAgg rows x = none := by
  have hnil : rows.filter (fun r => r.sale_date == x) = [] := by
    rw [List.filter_eq_nil_iff]
    intro a ha
    simp only [beq_iff_eq]
    exact h a ha
  simp [dayAgg, hnil]

theorem fillDays_length (rows : List SaleRow) :
    ∀ (k : Nat) (d : Int) (last : Option ℚ), (fillDays rows d k last).length = k := by
  intro k
  induction k with
  | zero => intro d last; rfl
  | succ n ih =>
    intro d last
    cases hda : dayAgg rows d with
    | some v =>
      obtain ⟨q, rev, p⟩ := v
      simp [fillDays, hda, ih]
    | none =>
      simp [fillDays, hda, ih]

theorem fillDays_date (rows : List SaleRow) :
    ∀ (k j : Nat) (d : Int) (last : Option ℚ), j < k →
      ((fillDays rows d k last)[j]?).map (fun r => r.sale_date) = some (d + j) := by
  intro k
  induction k with
  | zero => intro j d last h; exact absurd h (Nat.not_lt_zero j)
  | succ n ih =>
    intro j d last hj
    cases hda : dayAgg rows d with
    | some v =>
      obtain ⟨q, rev, p⟩ := v
      simp only [fillDays, hda]
      cases j with
      | zero => simp
      | succ m =>
        simp only [List.getElem?_cons_succ]
        rw [ih m (d + 1) (some p) (Nat.lt_of_succ_lt_succ hj)]
        congr 1
        push_cast
        ring
    | none =>
      simp only [fillDays, hda]
      cases j with
      | zero => simp
      | succ m =>
        simp only [List.getElem?_cons_succ]
        rw [ih m (d + 1) last (Nat.lt_of_succ_lt_succ hj)]
        congr 1
        push_cast
        ring

theorem fillDays_gap (rows : List SaleRow) :
    ∀ (k j : Nat) (d : Int) (last : Option ℚ), j < k → dayAgg rows (d + j) = none →
      ∃ r, (fillDays rows d k last)[j]? = some r ∧
        r.quantity_sold = 0 ∧ r.total_revenue = 0 := by
  intro k
  induction k with
  | zero => intro j d last h; exact absurd h (Nat.not_lt_zero j)
  | succ n ih =>
    intro j d last hj hnone
    cases j with
    | zero =>
      have hd : dayAgg rows d = none := by simpa using hnone
      refine ⟨⟨d, 0, 0, last⟩, ?_, rfl, rfl⟩
      simp [fillDays, hd]
    | succ m =>
      have hrec : dayAgg rows ((d + 1) + m) = none := by
        have : (d + 1) + (m : Int) = d + ((m : Nat) + 1 : Nat) := by
          push_cast
          ring
        rw [this]
        exact hnone
      cases hda : dayAgg rows d with
      | some v =>
        obtain ⟨q, rev, p⟩ := v
        obtain ⟨r, hr, hq, hrev⟩ := ih m (d + 1) (some p) (Nat.lt_of_succ_lt_succ hj) hrec
        refine ⟨r, ?_, hq, hrev⟩
        simp only [fillDays, hda, List.getElem?_cons_succ]
        exact hr
      | none =>
        obtain ⟨r, hr, hq, hrev⟩ := ih m (d + 1) last (Nat.lt_of_succ_lt_succ hj) hrec
        refine ⟨r, ?_, hq, hrev⟩
        simp only [fillDays, hda, List.getElem?_cons_succ]
        exact hr

theorem fillDays_head_of_gap (rows : List SaleRow) (n : Nat) (d : Int) (last : Option ℚ)
    (hd : dayAgg rows d = none) :
    (fillDays rows d (n + 1) last)[0]? = some ⟨d, 0, 0, last⟩ := by
  simp [fillDays, hd]

theorem fillDays_ffill (rows : List SaleRow) :
    ∀ (k j : Nat) (d : Int) (last : Option ℚ), j + 1 < k →
      dayAgg rows (d + (j + 1 : Nat)) = none →
      ∃ r r2, (fillDays rows d k last)[j]? = some r ∧
        (fillDays rows d k last)[j + 1]? = some r2 ∧
        r2.unit_price = r.unit_price := by
  intro k
  induction k with
  | zero => intro j d last h; exact absurd h (Nat.not_lt_zero (j + 1))
  | succ n ih =>
    intro j d last hj hnone
    cases j with
    | zero =>
      have h1 : dayAgg rows (d + 1) = none := by simpa using hnone
      obtain ⟨m, rfl⟩ : ∃ m, n = m + 1 := by
        cases n with
        | zero => exact absurd hj (by norm_num)
        | succ m => exact ⟨m, rfl⟩
      cases hda : dayAgg rows d with
      | some v =>
        obtain ⟨q, rev, p⟩ := v
        refine ⟨⟨d, q, rev, some p⟩, ⟨d + 1, 0, 0, some p⟩, ?_, ?_, rfl⟩
        · simp [fillDays, hda]
        · simp only [fillDays, hda, List.getElem?_cons_succ]
          exact fillDays_head_of_gap rows m (d + 1) (some p) h1
      | none =>
        refine ⟨⟨d, 0, 0, last⟩, ⟨d + 1, 0, 0, last⟩, ?_, ?_, rfl⟩
        · simp [fillDays, hda]
        · simp only [fillDays, hda, List.getElem?_cons_succ]
          exact fillDays_head_of_gap rows m (d + 1) last h1
    | succ m =>
      have hrec : dayAgg rows ((d + 1) + (m + 1 : Nat)) = none := by
        have : (d + 1) + ((m : Nat) + 1 : Nat) = d + ((m + 1 : Nat) + 1 : Nat) := by
          push_cast
          ring
        rw [this]
        exact hnone
      have hj2 : m + 1 < n := Nat.lt_of_succ_lt_succ hj
      cases hda : dayAgg rows d with
      | some v =>
        obtain ⟨q, rev, p⟩ := v
        obtain ⟨r, r2, hr, hr2, hp⟩ := ih m (d + 1) (some p) hj2 hrec
        exact ⟨r, r2, by simpa only [fillDays, hda, List.getElem?_cons_succ] using hr,
               by simpa only [fillDays, hda, List.getElem?_cons_succ] using hr2, hp⟩
      | none =>
        obtain ⟨r, r2, hr, hr2, hp⟩ := ih m (d + 1) last hj2 hrec
        exact ⟨r, r2, by simpa only [fillDays, hda, List.getElem?_cons_succ] using hr,
               by simpa only [fillDays, hda, List.getElem?_cons_succ] using hr2, hp⟩

/-- C6: for a non-empty set of raw sales rows, the gap-filled daily
series has exactly one row per calendar day from the first to the last
observed sale date with no gaps (its length is the day count and the row
at offset j carries date min + j), every synthesized day — one with no
raw row — has quantity and revenue 0, and a synthesized day's unit price
equals the preceding day's unit price, that is, it is forward-filled
from the last known value. -/
theorem aggregate_daily_spec (rows : List SaleRow) (hne : rows ≠ []) :
    (aggregate_daily rows).length
      = (maxSaleDate rows - minSaleDate rows + 1).toNat ∧
    (∀ j : Nat, j < (maxSaleDate rows - minSaleDate rows + 1).toNat →
      ((aggregate_daily rows)[j]?).map (fun r => r.sale_date)
        = some (minSaleDate rows + j)) ∧
    (∀ j : Nat, j < (maxSaleDate rows - minSaleDate rows + 1).toNat →
      (∀ s ∈ rows, s.sale_date ≠ minSaleDate rows + j) →
      ∃ r, (aggregate_daily rows)[j]? = some r ∧
        r.quantity_sold = 0 ∧ r.total_revenue = 0) ∧
    (∀ j : Nat, j + 1 < (maxSaleDate rows - minSaleDate rows + 1).toNat →
      (∀ s ∈ rows, s.sale_date ≠ minSaleDate rows + (j + 1 : Nat)) →
      ∃ r r2, (aggregate_daily rows)[j]? = some r ∧
        (aggregate_daily rows)[j + 1]? = some r2 ∧
        r2.unit_price = r.unit_price) := by
  have hrun : aggregate_daily rows
      = fillDays rows (minSaleDate rows)
          ((maxSaleDate rows - minSaleDate rows + 1).toNat) none := by
    simp [aggregate_daily, hne]
  refine ⟨?_, ?_, ?_, ?_⟩
  · rw [hrun]
    exact fillDays_length rows _ _ _
  · intro j hj
    rw [hrun]
    exact fillDays_date rows _ j _ none hj
  · intro j hj hmiss
    rw [hrun]
    exact fillDays_gap rows _ j _ none hj (dayAgg_eq_none_of rows _ hmiss)
  · intro j hj hmiss
    rw [hrun]
    exact fillDays_ffill rows _ j _ none hj (dayAgg_eq_none_of rows _ hmiss)

/-- C6 witness: two raw rows on days 0 and 2 yield a three-day series
whose middle day is synthesized with zero quantity and revenue. -/
theorem aggregate_daily_at_sample :
    (aggregate_daily [⟨0, 5, 2, 10⟩, ⟨2, 3, 4, 12⟩]).length = 3 ∧
    ∃ r, (aggregate_daily [⟨0, 5, 2, 10⟩, ⟨2, 3, 4, 12⟩])[1]? = some r ∧
      r.quantity_sold = 0 ∧ r.total_revenue = 0 := by
  have h := aggregate_daily_spec [⟨0, 5, 2, 10⟩, ⟨2, 3, 4, 12⟩] (by simp)
  have hcnt : (maxSaleDate [⟨0, 5, 2, 10⟩, ⟨2, 3, 4, 12⟩]
      - minSaleDate [⟨0, 5, 2, 10⟩, ⟨2, 3, 4, 12⟩] + 1).toNat = 3 := by decide
  constructor
  · rw [h.1, hcnt]
  · exact h.2.2.1 1 (by rw [hcnt]; norm_num) (by decide)

end Orion
